import Mathlib

/-!
Verification of the `kiwi.proxies` module: a two-way data-binding layer
(`Proxy`) synchronizing GUI widgets with attributes of a model object.

The Python source is shallowly embedded: the externally observable side
effects of a call (signal blocking/unblocking, widget updates, model
writes, hook invocations, registration, cache clearing) are collected as
an explicit trace of events, exceptions become an `Option PyErr` (or
`Except PyErr`) result, and the mutated objects are returned explicitly.
-/

set_option autoImplicit false

namespace KiwiProxies

/-- Python values flowing between widgets and the model. `VUnset` is the
`kiwi.ValueUnset` sentinel ("no value available"); `VNone` is Python's
`None`; the remaining constructors model concrete typed data. -/
inductive Value where
  | VUnset
  | VNone
  | VInt (n : Int)
  | VStr (s : String)
  | VBool (b : Bool)
  deriving DecidableEq, Repr

/-- The widget's declared `data-type` property (a Python type object). -/
inductive DataType where
  | DInt
  | DStr
  | DBool
  deriving DecidableEq, Repr

/-- Python `isinstance(value, data_type)` for the embedded value universe
(`bool` is a subclass of `int` in Python, so `VBool` matches `DInt`). -/
def isinstanceOf : Value → DataType → Bool
  | .VInt _, .DInt => true
  | .VStr _, .DStr => true
  | .VBool _, .DBool => true
  | .VBool _, .DInt => true
  | _, _ => false

/-- The Python exception classes raised by the module. `otherError` stands
for an exception raised inside an external collaborator (a model property
setter or a widget `update`), which the proxy code does not catch. -/
inductive PyErr where
  | proxyError
  | attributeError
  | keyError
  | typeError
  | otherError
  deriving DecidableEq, Repr

/-- A kiwi widget, as seen by the proxy: its capability flags
(`isinstance(widget, Mixin)`, `isinstance(widget, MixinSupportValidation)`),
its `data-type` and `model-attribute` properties, the stored
`content-changed-id` data (`none` when `get_data` finds nothing), the id a
`connect` call would return, the values `read()` and `validate()` would
return, and whether its `update` method raises. -/
structure Widget where
  name : String
  isMixin : Bool
  supportsValidation : Bool
  dataType : Option DataType
  modelAttribute : Option String
  contentChangedId : Option Nat
  connectId : Nat
  readValue : Value
  validateValue : Value
  updateRaises : Bool
  deriving DecidableEq, Repr

/-- The model object: its attribute store, its class identity (`cls`) and
proper ancestor classes (for `type(...)` and `isinstance` checks), which
optional capabilities it exposes (`hasattr` checks), whether
`register_proxy_for_attribute` raises `AttributeError`, and which
attribute writes raise (a Python property setter may raise). -/
structure Model where
  attrs : List (String × Value)
  cls : Nat
  ancestors : List Nat
  hasBlockProxy : Bool
  hasRegisterProxy : Bool
  registerRaisesAttrErr : Bool
  hasUnregisterProxy : Bool
  writeRaises : List String
  deriving DecidableEq, Repr

/-- Observable side effects of the proxy code on its collaborators. -/
inductive Event where
  | handlerBlock (cid : Nat)
  | handlerUnblock (cid : Nat)
  | viewHandlerBlock (wname : String)
  | viewHandlerUnblock (wname : String)
  | widgetUpdate (wname : String) (v : Value)
  | widgetValidateForce (wname : String)
  | modelBlockProxy
  | modelUnblockProxy
  | modelWrite (attr : String) (v : Value)
  | proxyUpdatedHook (wname : String) (v : Value)
  | registerProxy (attr : String)
  | unregisterProxy
  | clearAttrCache
  | connectSignal (wname : String) (cid : Nat)
  deriving DecidableEq, Repr

/-- Association-list lookup (Python `dict.get(key, None)` /
`getattr(obj, name, None)`). -/
def alookup {β : Type} : List (String × β) → String → Option β
  | [], _ => none
  | (a, b) :: rest, k => if a = k then some b else alookup rest k

/-- The view, as seen by `Proxy.__init__`: resolving a widget name via
`getattr(self._view, widget_name, None)`. -/
structure View where
  widgets : List (String × Widget)
  deriving DecidableEq, Repr

/-- The proxy state: `self.model` and `self._model_attributes`. -/
structure Proxy where
  model : Option Model
  modelAttributes : List (String × Widget)
  deriving DecidableEq, Repr

/-- `block_widget(widget)`: reads the stored `content-changed-id`; calls
`widget.handler_block(connection_id)` only when it is truthy (Python
falsiness: absent data or the integer 0 skip the call). Returns the
emitted events; the function itself cannot raise. -/
def block_widget (widget : Widget) : List Event :=
  match widget.contentChangedId with
  | none => []
  | some cid => if cid = 0 then [] else [Event.handlerBlock cid]

/-- `unblock_widget(widget)`: mirror image of `block_widget`. -/
def unblock_widget (widget : Widget) : List Event :=
  match widget.contentChangedId with
  | none => []
  | some cid => if cid = 0 then [] else [Event.handlerUnblock cid]

/-- Modelled from the spec: `kiwi.accessors.kgetattr` is imported by
`proxies.py` but `kiwi/accessors.py` is not under `src/`. The spec
describes "attribute access via a path-aware getter/setter (supports
dotted attribute paths and an accessor cache)"; attribute paths are
modelled as opaque keys into the model's attribute store, with the given
default returned when the attribute is absent. -/
def kgetattr (model : Model) (attr : String) (deflt : Value) : Value :=
  match alookup model.attrs attr with
  | some v => v
  | none => deflt

/-- Replace the binding of `attr` in an attribute store, keeping every
other binding untouched. -/
def ksetattrStore : List (String × Value) → String → Value → List (String × Value)
  | [], attr, v => [(attr, v)]
  | (a, w) :: rest, attr, v =>
      if a = attr then (a, v) :: rest else (a, w) :: ksetattrStore rest attr v

/-- Modelled from the spec: `kiwi.accessors.ksetattr` (not under `src/`)
writes one named attribute of the model. The underlying Python attribute
set can raise (a property setter on the model, for instance); attributes
listed in `writeRaises` model that failure mode. On success exactly the
named attribute is replaced. -/
def ksetattr (model : Model) (attr : String) (v : Value) : Except PyErr Model :=
  if attr ∈ model.writeRaises then .error .otherError
  else .ok ⟨ksetattrStore model.attrs attr v, model.cls, model.ancestors,
            model.hasBlockProxy, model.hasRegisterProxy, model.registerRaisesAttrErr,
            model.hasUnregisterProxy, model.writeRaises⟩

/-- `Proxy._block_proxy_in_model(state)`: no-op unless the model exposes
`block_proxy` (`hasattr` on `None` is false, so a missing model is also a
no-op); otherwise calls `block_proxy` or `unblock_proxy`. -/
def block_proxy_in_model (p : Proxy) (state : Bool) : List Event :=
  match p.model with
  | none => []
  | some m =>
      if m.hasBlockProxy then
        if state then [Event.modelBlockProxy] else [Event.modelUnblockProxy]
      else []

/-- `Proxy._register_proxy_in_model(attribute)`: skipped silently when the
model does not expose `register_proxy_for_attribute`; an `AttributeError`
raised by the registration call is converted into a `TypeError`. -/
def register_proxy_in_model (p : Proxy) (attrName : String) :
    List Event × Option PyErr :=
  match p.model with
  | none => ([], none)
  | some m =>
      if m.hasRegisterProxy then
        if m.registerRaisesAttrErr then ([], some .typeError)
        else ([Event.registerProxy attrName], none)
      else ([], none)

/-- `Proxy._unregister_proxy_in_model()`: calls `unregister_proxy` only
when a model is present and exposes it. -/
def unregister_proxy_in_model (p : Proxy) : List Event :=
  match p.model with
  | none => []
  | some m => if m.hasUnregisterProxy then [Event.unregisterProxy] else []

/-- The value the content-changed handler reads from the widget:
`widget.validate()` for validation-supporting widgets, else
`widget.read()`. -/
def widgetCurrentValue (w : Widget) : Value :=
  if w.supportsValidation then w.validateValue else w.readValue

/-- A call to `widget.update(value)`: emits the update event on success,
raises (with no update event) when the widget's `update` fails. -/
def widgetUpdateCall (w : Widget) (v : Value) : List Event × Option PyErr :=
  if w.updateRaises then ([], some .otherError)
  else ([Event.widgetUpdate w.name v], none)

/-- The type check inside `Proxy.update`: `ValueUnset` and `None` are
exempt; otherwise the value must satisfy `isinstance(value, data_type)`
(when `data-type` is unset, Python's `isinstance(value, None)` raises
`TypeError` as well, so the check fails). -/
def valuePassesCheck (value : Value) (widget : Widget) : Bool :=
  if value = .VUnset ∨ value = .VNone then true
  else
    match widget.dataType with
    | none => false
    | some dt => isinstanceOf value dt

/-- The tail of `Proxy.update` after the value has been resolved: widget
lookup (raising `AttributeError` for an unbound attribute), the type check
(raising `TypeError`), and the push into the widget, wrapped in
`block_widget` / `view.handler_block` when `block` is set. The Boolean
result distinguishes Python's `return True` (`true`) from a bare `return`
(`false`). -/
def updateResolved (p : Proxy) (attrName : String) (value : Value) (block : Bool) :
    List Event × Except PyErr Bool :=
  match alookup p.modelAttributes attrName with
  | none => ([], .error .attributeError)
  | some widget =>
      if valuePassesCheck value widget then
        if block then
          match widgetUpdateCall widget value with
          | (evs2, some e) =>
              (block_widget widget ++ [Event.viewHandlerBlock widget.name] ++ evs2,
               .error e)
          | (evs2, none) =>
              (block_widget widget ++ [Event.viewHandlerBlock widget.name] ++ evs2 ++
                 [Event.viewHandlerUnblock widget.name] ++ unblock_widget widget,
               .ok true)
        else
          match widgetUpdateCall widget value with
          | (evs2, some e) => (evs2, .error e)
          | (evs2, none) => (evs2, .ok true)
      else ([], .error .typeError)

/-- `Proxy.update(attribute, value, block)`: when the value argument is
`ValueUnset`, a missing model short-circuits (bare `return`), otherwise
the value is fetched from the model via `kgetattr`; then the resolved
value is pushed by `updateResolved`. -/
def Proxy.update (p : Proxy) (attrName : String) (value : Value) (block : Bool) :
    List Event × Except PyErr Bool :=
  if value = .VUnset then
    match p.model with
    | none => ([], .ok false)
    | some m => updateResolved p attrName (kgetattr m attrName .VUnset) block
  else updateResolved p attrName value block

/-- Replace `self.model`. -/
def Proxy.setModel : Proxy → Option Model → Proxy
  | ⟨_, attrs⟩, m => ⟨m, attrs⟩

/-- `Proxy._on_widget__content_changed(widget, attribute)`: no-op without
a model; reads the widget's (possibly validated) value; skips `ValueUnset`;
otherwise blocks the model's proxy echo, writes the attribute via
`ksetattr`, unblocks, and invokes the `proxy_updated` hook. There is no
`try/finally`: if `ksetattr` raises, the exception propagates with the
echo still blocked. Returns the (possibly) mutated proxy, the trace, and
the escaping exception if any. -/
def Proxy.content_changed (p : Proxy) (widget : Widget) (attrName : String) :
    Proxy × List Event × Option PyErr :=
  match p.model with
  | none => (p, [], none)
  | some model =>
      let value := widgetCurrentValue widget
      if value = .VUnset then (p, [], none)
      else
        let evs1 := block_proxy_in_model p true
        match ksetattr model attrName value with
        | .error e => (p, evs1, some e)
        | .ok model' =>
            let p' := p.setModel (some model')
            (p', evs1 ++ [Event.modelWrite attrName value] ++
                   block_proxy_in_model p' false ++
                   [Event.proxyUpdatedHook widget.name value],
             none)

/-- One iteration of `Proxy._initialize_widgets` for a bound
`(attribute, widget)` pair: with no model the value is `ValueUnset`
(and `update` returns immediately); with a model the proxy is registered
(which may raise) and the current attribute value is fetched; then
`update(attribute, value, block=True)` runs, and validation-supporting
widgets get a forced `validate`. -/
def initWidgetStep (p : Proxy) (attrName : String) (widget : Widget) :
    List Event × Option PyErr :=
  match p.model with
  | none =>
      match p.update attrName .VUnset true with
      | (evs, .error e) => (evs, some e)
      | (evs, .ok _) =>
          (evs ++ (if widget.supportsValidation
                   then [Event.widgetValidateForce widget.name] else []), none)
  | some m =>
      match register_proxy_in_model p attrName with
      | (evs1, some e) => (evs1, some e)
      | (evs1, none) =>
          match p.update attrName (kgetattr m attrName .VUnset) true with
          | (evs2, .error e) => (evs1 ++ evs2, some e)
          | (evs2, .ok _) =>
              (evs1 ++ evs2 ++ (if widget.supportsValidation
                                then [Event.widgetValidateForce widget.name] else []),
               none)

/-- The loop of `Proxy._initialize_widgets` over `_model_attributes`;
an exception aborts the remaining iterations. -/
def initializeWidgetsAux (p : Proxy) : List (String × Widget) → List Event × Option PyErr
  | [] => ([], none)
  | (attrName, widget) :: rest =>
      match initWidgetStep p attrName widget with
      | (evs, some e) => (evs, some e)
      | (evs, none) =>
          match initializeWidgetsAux p rest with
          | (evs2, r) => (evs ++ evs2, r)

/-- `Proxy._initialize_widgets()`. -/
def initialize_widgets (p : Proxy) : List Event × Option PyErr :=
  initializeWidgetsAux p p.modelAttributes

/-- Python falsiness of the `model-attribute` string property
(`if not attribute:`): unset or empty. -/
def falsyAttr : Option String → Bool
  | none => true
  | some s => s = ""

/-- `Proxy._setup_widget(widget_name, widget)` acting on
`self._model_attributes`: raises `ProxyError` for a non-kiwi widget, a
missing `data-type`, or a falsy `model-attribute`; then connects the
`content-changed` signal and stores the connection id on the widget;
raises `KeyError` when the attribute is already bound (note: after the
signal was already connected); otherwise records the binding. -/
def setup_widget (attrs : List (String × Widget)) (widget : Widget) :
    List (String × Widget) × List Event × Option PyErr :=
  if widget.isMixin = false then (attrs, [], some .proxyError)
  else
    match widget.dataType with
    | none => (attrs, [], some .proxyError)
    | some _ =>
        match widget.modelAttribute with
        | none => (attrs, [], some .proxyError)
        | some attrName =>
            if attrName = "" then (attrs, [], some .proxyError)
            else
              let widget' : Widget :=
                ⟨widget.name, widget.isMixin, widget.supportsValidation,
                 widget.dataType, widget.modelAttribute, some widget.connectId,
                 widget.connectId, widget.readValue, widget.validateValue,
                 widget.updateRaises⟩
              let evs := [Event.connectSignal widget.name widget.connectId]
              if (alookup attrs attrName).isSome then (attrs, evs, some .keyError)
              else (attrs ++ [(attrName, widget')], evs, none)

/-- The widget-name loop of `Proxy.__init__`: resolve each name on the
view (raising `AttributeError` when absent) and run `_setup_widget`. -/
def proxyInitAux (view : View) :
    List String → List (String × Widget) →
    List (String × Widget) × List Event × Option PyErr
  | [], attrs => (attrs, [], none)
  | name :: rest, attrs =>
      match alookup view.widgets name with
      | none => (attrs, [], some .attributeError)
      | some widget =>
          match setup_widget attrs widget with
          | (attrs', evs, some e) => (attrs', evs, some e)
          | (attrs', evs, none) =>
              match proxyInitAux view rest attrs' with
              | (attrs2, evs2, r) => (attrs2, evs ++ evs2, r)

/-- `Proxy.__init__(view, model, widgets)`: widget attachment followed by
`_initialize_widgets`. On an escaping exception the constructor yields no
usable proxy. -/
def proxyInit (view : View) (model : Option Model) (widgets : List String) :
    Option Proxy × List Event × Option PyErr :=
  match proxyInitAux view widgets [] with
  | (_, evs, some e) => (none, evs, some e)
  | (attrs, evs, none) =>
      let p : Proxy := ⟨model, attrs⟩
      match initialize_widgets p with
      | (evs2, some e) => (none, evs ++ evs2, some e)
      | (evs2, none) => (some p, evs ++ evs2, none)

/-- Python `isinstance(new_model, self.model.__class__)`: same class or
the old class among the new model's ancestors. -/
def pyIsinstance (newM m : Model) : Prop :=
  newM.cls = m.cls ∨ m.cls ∈ newM.ancestors

instance (newM m : Model) : Decidable (pyIsinstance newM m) := by
  unfold pyIsinstance
  infer_instance

/-- `Proxy.new_model(new_model, relax_type)`: unregister from the old
model, clear the global attribute cache, check the new model's type
(`type(new) != type(old) and not isinstance(new, old.__class__)`) unless
`relax_type` or no old model, swap the model reference, and re-run
`_initialize_widgets`. On a type-check failure the model reference is
unchanged; an exception from re-initialization escapes with the model
reference already swapped. -/
def Proxy.new_model (p : Proxy) (newM : Model) (relax_type : Bool) :
    Proxy × List Event × Option PyErr :=
  let evs1 := unregister_proxy_in_model p ++ [Event.clearAttrCache]
  let check : Option PyErr :=
    match p.model with
    | none => none
    | some m =>
        if relax_type = false ∧ newM.cls ≠ m.cls ∧ ¬ pyIsinstance newM m
        then some .typeError else none
  match check with
  | some e => (p, evs1, some e)
  | none =>
      let p' := p.setModel (some newM)
      match initialize_widgets p' with
      | (evs2, r) => (p', evs1 ++ evs2, r)

/-! Concrete sample widgets, models, views and proxies used to evaluate
the definitions on closed inputs. Widget fields are, in order: name,
isMixin, supportsValidation, dataType, modelAttribute, contentChangedId,
connectId, readValue, validateValue, updateRaises. Model fields: attrs,
cls, ancestors, hasBlockProxy, hasRegisterProxy, registerRaisesAttrErr,
hasUnregisterProxy, writeRaises. -/

/-- An int-typed kiwi widget bound to attribute `age`, already connected
(`content-changed-id` 1). -/
def wAge : Widget :=
  ⟨"age_widget", true, false, some .DInt, some "age", some 1, 1,
   .VInt 7, .VInt 7, false⟩

/-- A second int-typed widget also bound to `age`, not yet connected. -/
def wAge2 : Widget :=
  ⟨"age_widget2", true, false, some .DInt, some "age", none, 2,
   .VInt 8, .VInt 8, false⟩

/-- A validation-supporting string-typed widget bound to `nm`. -/
def wName : Widget :=
  ⟨"name_widget", true, true, some .DStr, some "nm", some 3, 3,
   .VStr "bob", .VStr "bob", false⟩

/-- A widget whose `update` method raises. -/
def wRaises : Widget :=
  ⟨"raising_widget", true, false, some .DInt, some "age", some 5, 5,
   .VInt 9, .VInt 9, true⟩

/-- A model with attributes `age` and `nm`, class 10 (ancestor 20),
exposing the full registration protocol. -/
def mA : Model :=
  ⟨[("age", .VInt 21), ("nm", .VStr "ann")], 10, [20],
   true, true, false, true, []⟩

/-- A model whose `age` attribute write raises (a failing property
setter), exposing `block_proxy`. -/
def mRaisingWrite : Model :=
  ⟨[("age", .VInt 21)], 10, [20], true, false, false, false, ["age"]⟩

/-- A model of class 11 whose ancestors include class 10: an instance of
`mA`'s class. -/
def mB : Model :=
  ⟨[("age", .VInt 30), ("nm", .VStr "joe")], 11, [10, 20],
   false, false, false, false, []⟩

/-- A model of an unrelated class 99. -/
def mC : Model :=
  ⟨[("age", .VInt 1)], 99, [], false, false, false, false, []⟩

/-- A model whose `register_proxy_for_attribute` raises
`AttributeError`. -/
def mRegRaises : Model :=
  ⟨[], 10, [], false, true, true, false, []⟩

/-- A proxy over `mA` binding `age` and `nm`. -/
def pA : Proxy := ⟨some mA, [("age", wAge), ("nm", wName)]⟩

/-- A proxy with no model binding `age`. -/
def pNoModel : Proxy := ⟨none, [("age", wAge)]⟩

/-- A proxy over the raising-write model, bound through the
raising-update widget. -/
def pRaise : Proxy := ⟨some mRaisingWrite, [("age", wRaises)]⟩

/-- A proxy over the model whose registration call raises. -/
def pReg : Proxy := ⟨some mRegRaises, [("age", wAge)]⟩

/-- A proxy over `mA` binding only `age`, for model replacement. -/
def pSwap : Proxy := ⟨some mA, [("age", wAge)]⟩

/-- A view exposing two widgets both bound to the attribute `age`. -/
def vDup : View := ⟨[("w1", wAge), ("w2", wAge2)]⟩

/-- A view exposing one well-configured widget. -/
def vOk : View := ⟨[("w1", wAge)]⟩

/-! Helper lemmas shared by the claim theorems. -/

theorem Proxy.setModel_eq (p : Proxy) (m : Option Model) :
    p.setModel m = ⟨m, p.modelAttributes⟩ := by
  cases p
  rfl

theorem alookup_ksetattrStore_same (l : List (String × Value)) (a : String) (v : Value) :
    alookup (ksetattrStore l a v) a = some v := by
  induction l with
  | nil => simp [ksetattrStore, alookup]
  | cons hd tl ih =>
      obtain ⟨b, w⟩ := hd
      by_cases h : b = a <;> simp [ksetattrStore, alookup, h, ih]

theorem alookup_ksetattrStore_other (l : List (String × Value)) (a x : String)
    (v : Value) (hx : x ≠ a) :
    alookup (ksetattrStore l a v) x = alookup l x := by
  induction l with
  | nil =>
      simp [ksetattrStore, alookup]
      intro h
      exact absurd h.symm hx
  | cons hd tl ih =>
      obtain ⟨b, w⟩ := hd
      by_cases h : b = a
      · subst h
        have hbx : b ≠ x := fun hc => hx (hc.symm)
        simp [ksetattrStore, alookup, hbx]
      · by_cases h2 : b = x <;> simp [ksetattrStore, alookup, h, h2, hx, ih]

/-! Claim theorems. -/

/-- C10: `block_widget` and `unblock_widget` are total no-ops on a widget
whose stored `content-changed-id` data is absent or falsy: they emit no
`handler_block`/`handler_unblock` call and raise nothing, so blocking an
unconnected widget is safe. -/
theorem c10_block_unblock_noop (w : Widget)
    (h : w.contentChangedId = none ∨ w.contentChangedId = some 0) :
    block_widget w = [] ∧ unblock_widget w = [] := by
  rcases h with h | h <;> simp [block_widget, unblock_widget, h]

theorem c10_witness :
    block_widget wAge2 = [] ∧ unblock_widget wAge2 = [] :=
  c10_block_unblock_noop wAge2 (Or.inl rfl)

/-- C8: registering the proxy with a model that exposes
`register_proxy_for_attribute` converts a failing registration
(`AttributeError`) into a `TypeError` raised to the caller; a model that
does not expose the capability at all is skipped silently with no
error. -/
theorem c8_register_proxy_conversion (p : Proxy) (m : Model) (a : String)
    (hm : p.model = some m) :
    (m.hasRegisterProxy = true → m.registerRaisesAttrErr = true →
       register_proxy_in_model p a = ([], some .typeError)) ∧
    (m.hasRegisterProxy = false → register_proxy_in_model p a = ([], none)) := by
  constructor
  · intro h1 h2
    simp [register_proxy_in_model, hm, h1, h2]
  · intro h1
    simp [register_proxy_in_model, hm, h1]

theorem c8_witness :
    register_proxy_in_model pReg "age" = ([], some PyErr.typeError) :=
  (c8_register_proxy_conversion pReg mRegRaises "age" rfl).1 rfl rfl

/-- C3 counterexample: binding a second widget to an already-bound
attribute is a proxy-configuration failure at setup time, yet the
exception raised by the constructor is `KeyError`, not the distinct
proxy-configuration exception `ProxyError` — refuting the claim that
every listed setup failure raises `ProxyError`. -/
theorem c3_counterexample :
    (proxyInit vDup none ["w1", "w2"]).2.2 = some PyErr.keyError ∧
    some PyErr.keyError ≠ some PyErr.proxyError := by
  decide

/-- C3 (amended): at setup time, a widget that is not a kiwi widget, a
widget with no data type, and a widget with no (or an empty) model
attribute raise `ProxyError`; a widget name absent from the view raises
`AttributeError`; binding a second widget to an already-bound attribute
raises `KeyError` (after the signal was already connected). -/
theorem c3_setup_failures (view : View) (nm : String) (w : Widget)
    (attrs : List (String × Widget)) :
    (alookup view.widgets nm = none →
       proxyInit view none [nm] = (none, [], some .attributeError)) ∧
    (w.isMixin = false → setup_widget attrs w = (attrs, [], some .proxyError)) ∧
    (w.isMixin = true → w.dataType = none →
       setup_widget attrs w = (attrs, [], some .proxyError)) ∧
    (w.isMixin = true → w.dataType.isSome = true → falsyAttr w.modelAttribute = true →
       setup_widget attrs w = (attrs, [], some .proxyError)) ∧
    (∀ a, w.isMixin = true → w.dataType.isSome = true → w.modelAttribute = some a →
       a ≠ "" → (alookup attrs a).isSome = true →
       setup_widget attrs w =
         (attrs, [Event.connectSignal w.name w.connectId], some .keyError)) := by
  refine ⟨?_, ?_, ?_, ?_, ?_⟩
  · intro h
    simp [proxyInit, proxyInitAux, h]
  · intro h
    simp [setup_widget, h]
  · intro h1 h2
    simp [setup_widget, h1, h2]
  · intro h1 h2 h3
    cases hdt : w.dataType with
    | none => rw [hdt] at h2; simp at h2
    | some dt =>
        cases hma : w.modelAttribute with
        | none => simp [setup_widget, h1, hdt, hma]
        | some a =>
            rw [hma] at h3
            simp [falsyAttr] at h3
            simp [setup_widget, h1, hdt, hma, h3]
  · intro a h1 h2 hma hne hdup
    cases hdt : w.dataType with
    | none => rw [hdt] at h2; simp at h2
    | some dt => simp [setup_widget, h1, hdt, hma, hne, hdup]

theorem c3_witness :
    setup_widget [("age", wAge)] wAge2 =
      ([("age", wAge)], [Event.connectSignal "age_widget2" 2], some PyErr.keyError) := by
  have h := (c3_setup_failures vOk "w1" wAge2 [("age", wAge)]).2.2.2.2
      "age" rfl rfl rfl (by decide) (by decide)
  exact h.trans (by decide)

/-- C4 counterexample: in the content-changed handler over a model whose
attribute write raises, the model's proxy echo is blocked before the
write but is never unblocked — the exception escapes with the suppressed
channel still blocked, refuting restoration on every exit path. -/
theorem c4_counterexample :
    Event.modelBlockProxy ∈ (pRaise.content_changed wRaises "age").2.1 ∧
    Event.modelUnblockProxy ∉ (pRaise.content_changed wRaises "age").2.1 ∧
    (pRaise.content_changed wRaises "age").2.2 = some PyErr.otherError := by
  decide

theorem mem_block_widget {w : Widget} {e : Event} (h : e ∈ block_widget w) :
    ∃ c, e = Event.handlerBlock c := by
  unfold block_widget at h
  cases hc : w.contentChangedId with
  | none =>
      rw [hc] at h
      simp at h
  | some c =>
      rw [hc] at h
      by_cases h0 : c = 0
      · simp [h0] at h
      · simp [h0] at h
        exact ⟨c, h⟩

theorem mem_unblock_widget {w : Widget} {e : Event} (h : e ∈ unblock_widget w) :
    ∃ c, e = Event.handlerUnblock c := by
  unfold unblock_widget at h
  cases hc : w.contentChangedId with
  | none =>
      rw [hc] at h
      simp at h
  | some c =>
      rw [hc] at h
      by_cases h0 : c = 0
      · simp [h0] at h
      · simp [h0] at h
        exact ⟨c, h⟩

/-- C4 (amended): the suppressed notification channel is restored on the
normal (non-raising) exit path only. In the content-changed handler a
successful model write is followed by unblocking the model's proxy echo;
if the write raises, the exception escapes with the echo still blocked.
In `update(block=True)` a successful `widget.update` is followed by
unblocking the widget's handler; if `widget.update` raises, the
exception escapes with the handler still blocked (there is no
`try/finally`). -/
theorem c4_restore_on_normal_exit (p : Proxy) (m : Model) (w : Widget)
    (a : String) (v : Value) :
    (p.model = some m → widgetCurrentValue w ≠ .VUnset → a ∉ m.writeRaises →
       m.hasBlockProxy = true →
       Event.modelUnblockProxy ∈ (p.content_changed w a).2.1 ∧
       (p.content_changed w a).2.2 = none) ∧
    (p.model = some m → widgetCurrentValue w ≠ .VUnset → a ∈ m.writeRaises →
       Event.modelUnblockProxy ∉ (p.content_changed w a).2.1 ∧
       (p.content_changed w a).2.2 = some .otherError) ∧
    (alookup p.modelAttributes a = some w → v ≠ .VUnset →
       valuePassesCheck v w = true → w.updateRaises = false →
       Event.viewHandlerUnblock w.name ∈ (p.update a v true).1 ∧
       (p.update a v true).2 = .ok true) ∧
    (alookup p.modelAttributes a = some w → v ≠ .VUnset →
       valuePassesCheck v w = true → w.updateRaises = true →
       Event.viewHandlerBlock w.name ∈ (p.update a v true).1 ∧
       Event.viewHandlerUnblock w.name ∉ (p.update a v true).1 ∧
       (p.update a v true).2 = .error .otherError) := by
  refine ⟨?_, ?_, ?_, ?_⟩
  · intro hm hv hnw hbp
    simp [Proxy.content_changed, hm, hv, ksetattr, hnw, Proxy.setModel_eq,
      block_proxy_in_model, hbp]
  · intro hm hv hmem
    constructor
    · by_cases hbp : m.hasBlockProxy <;>
        simp [Proxy.content_changed, hm, hv, ksetattr, hmem, block_proxy_in_model, hbp]
    · simp [Proxy.content_changed, hm, hv, ksetattr, hmem]
  · intro hw hv hchk hur
    simp [Proxy.update, hv, updateResolved, hw, hchk, widgetUpdateCall, hur]
  · intro hw hv hchk hur
    refine ⟨?_, ?_, ?_⟩
    · simp [Proxy.update, hv, updateResolved, hw, hchk, widgetUpdateCall, hur]
    · have heq : p.update a v true =
          (block_widget w ++ [Event.viewHandlerBlock w.name], .error .otherError) := by
        simp [Proxy.update, hv, updateResolved, hw, hchk, widgetUpdateCall, hur]
      rw [heq]
      intro hmem
      rcases List.mem_append.mp hmem with h1 | h1
      · obtain ⟨c, hc⟩ := mem_block_widget h1
        exact Event.noConfusion hc
      · simp at h1
    · simp [Proxy.update, hv, updateResolved, hw, hchk, widgetUpdateCall, hur]

theorem c4_witness :
    Event.viewHandlerUnblock "age_widget" ∈ (pA.update "age" (Value.VInt 5) true).1 ∧
    (pA.update "age" (Value.VInt 5) true).2 = .ok true :=
  (c4_restore_on_normal_exit pA mA wAge "age" (Value.VInt 5)).2.2.1
    (by decide) (by decide) (by decide) (by decide)

/-- C1: the content-changed handler is a no-op without a model; a widget
value of `ValueUnset` writes nothing; otherwise exactly the attribute
bound to the widget is set in the model to exactly the value read from
the widget (via `validate()` for validation-supporting widgets, else
`read()`), every other model attribute is left unchanged, and the
`proxy_updated` hook is invoked afterwards. (Stated for a model whose
attribute write succeeds; the write itself is `ksetattr`, modelled from
the spec since `kiwi/accessors.py` is not under `src/`.) -/
theorem c1_content_changed_updates_model (p : Proxy) (w : Widget) (a : String) :
    (p.model = none → p.content_changed w a = (p, [], none)) ∧
    (∀ m, p.model = some m → widgetCurrentValue w = .VUnset →
       p.content_changed w a = (p, [], none)) ∧
    (∀ m, p.model = some m → widgetCurrentValue w ≠ .VUnset → a ∉ m.writeRaises →
       p.content_changed w a =
         (⟨some ⟨ksetattrStore m.attrs a (widgetCurrentValue w), m.cls, m.ancestors,
                 m.hasBlockProxy, m.hasRegisterProxy, m.registerRaisesAttrErr,
                 m.hasUnregisterProxy, m.writeRaises⟩, p.modelAttributes⟩,
          (if m.hasBlockProxy then [Event.modelBlockProxy] else []) ++
            [Event.modelWrite a (widgetCurrentValue w)] ++
            (if m.hasBlockProxy then [Event.modelUnblockProxy] else []) ++
            [Event.proxyUpdatedHook w.name (widgetCurrentValue w)],
          none) ∧
       alookup (ksetattrStore m.attrs a (widgetCurrentValue w)) a =
         some (widgetCurrentValue w) ∧
       (∀ x, x ≠ a → alookup (ksetattrStore m.attrs a (widgetCurrentValue w)) x =
         alookup m.attrs x)) := by
  refine ⟨?_, ?_, ?_⟩
  · intro hm
    simp [Proxy.content_changed, hm]
  · intro m hm hv
    simp [Proxy.content_changed, hm, hv]
  · intro m hm hv hnw
    refine ⟨?_, alookup_ksetattrStore_same m.attrs a (widgetCurrentValue w),
      fun x hx => alookup_ksetattrStore_other m.attrs a x (widgetCurrentValue w) hx⟩
    by_cases hbp : m.hasBlockProxy <;>
      simp [Proxy.content_changed, hm, hv, ksetattr, hnw, Proxy.setModel_eq,
        block_proxy_in_model, hbp]

theorem c1_witness :
    pA.content_changed wAge "age" =
      (⟨some ⟨[("age", Value.VInt 7), ("nm", Value.VStr "ann")], 10, [20],
              true, true, false, true, []⟩,
        [("age", wAge), ("nm", wName)]⟩,
       [Event.modelBlockProxy, Event.modelWrite "age" (Value.VInt 7),
        Event.modelUnblockProxy, Event.proxyUpdatedHook "age_widget" (Value.VInt 7)],
       none) := by
  have h := ((c1_content_changed_updates_model pA wAge "age").2.2 mA rfl
    (by decide) (by decide)).1
  exact h.trans (by decide)

/-- C2: with the attribute bound, a value that is neither `ValueUnset`
nor `None` and is not an instance of the widget's declared data type
makes `update` raise `TypeError` with the widget untouched — no
`widget.update` call and no handler block/unblock (the trace is empty).
`ValueUnset` and `None` are exempt from the check: an explicit `None`
never yields `TypeError`, a `ValueUnset` argument with no model is the
silent no-op, and a `ValueUnset` argument whose model fetch resolves to
`ValueUnset` again never yields `TypeError` (the check applies to the
resolved value). -/
theorem c2_update_type_mismatch (p : Proxy) (a : String) (w : Widget)
    (v : Value) (b : Bool) (dt : DataType)
    (hw : alookup p.modelAttributes a = some w) (hdt : w.dataType = some dt) :
    (v ≠ .VUnset → v ≠ .VNone → isinstanceOf v dt = false →
       p.update a v b = ([], .error .typeError)) ∧
    (v = .VNone → (p.update a v b).2 ≠ .error .typeError) ∧
    (v = .VUnset → p.model = none → p.update a v b = ([], .ok false)) ∧
    (∀ m, v = .VUnset → p.model = some m → kgetattr m a .VUnset = .VUnset →
       (p.update a v b).2 ≠ .error .typeError) := by
  refine ⟨?_, ?_, ?_, ?_⟩
  · intro hv1 hv2 hiso
    simp [Proxy.update, hv1, updateResolved, hw, valuePassesCheck, hv2, hdt, hiso]
  · intro hv
    subst hv
    by_cases hur : w.updateRaises <;> cases b <;>
      simp [Proxy.update, updateResolved, hw, valuePassesCheck, widgetUpdateCall, hur]
  · intro hv hm
    subst hv
    simp [Proxy.update, hm]
  · intro m hv hm hfetch
    subst hv
    by_cases hur : w.updateRaises <;> cases b <;>
      simp [Proxy.update, hm, hfetch, updateResolved, hw, valuePassesCheck,
        widgetUpdateCall, hur]

theorem c2_witness :
    pA.update "age" (Value.VStr "x") false = ([], .error .typeError) :=
  (c2_update_type_mismatch pA "age" wAge (Value.VStr "x") false DataType.DInt
    (by decide) (by decide)).1 (by decide) (by decide) (by decide)

theorem updateResolved_ret (p : Proxy) (a : String) (v : Value) (b : Bool) :
    ((updateResolved p a v b).2 = .ok true ↔
       ∃ wn vv, Event.widgetUpdate wn vv ∈ (updateResolved p a v b).1) ∧
    (updateResolved p a v b).2 ≠ .ok false := by
  cases hl : alookup p.modelAttributes a with
  | none => simp [updateResolved, hl]
  | some w =>
      cases hchk : valuePassesCheck v w with
      | false => simp [updateResolved, hl, hchk]
      | true =>
          by_cases hur : w.updateRaises
          · cases b
            · simp [updateResolved, hl, hchk, widgetUpdateCall, hur]
            · simp only [updateResolved, hl, hchk, widgetUpdateCall, hur]
              simp
              rintro wn vv hmem
              obtain ⟨c, hc⟩ := mem_block_widget hmem
              exact Event.noConfusion hc
          · cases b
            · simp [updateResolved, hl, hchk, widgetUpdateCall, hur]
            · simp only [updateResolved, hl, hchk, widgetUpdateCall, hur]
              simp
              exact ⟨w.name, v, by simp⟩

/-- C9: `Proxy.update` returns `True` exactly when it pushes a value into
the bound widget (a successful `widget.update` call appears in the
trace), and returns no value (Python `None`, embedded as `false`) exactly
on the silent path where the value argument is the unset sentinel and the
proxy has no model — so callers can distinguish a performed update from
the no-model no-op by the return value. -/
theorem c9_update_return_value (p : Proxy) (a : String) (v : Value) (b : Bool) :
    ((p.update a v b).2 = .ok true ↔
       ∃ wn vv, Event.widgetUpdate wn vv ∈ (p.update a v b).1) ∧
    ((p.update a v b).2 = .ok false ↔ (v = .VUnset ∧ p.model = none)) := by
  by_cases hv : v = .VUnset
  · subst hv
    cases hm : p.model with
    | none => simp [Proxy.update, hm]
    | some m =>
        have h := updateResolved_ret p a (kgetattr m a .VUnset) b
        constructor
        · simpa [Proxy.update, hm] using h.1
        · simp [Proxy.update, hm, h.2]
  · have h := updateResolved_ret p a v b
    constructor
    · simpa [Proxy.update, hv] using h.1
    · simp [Proxy.update, hv, h.2]

theorem setup_widget_events (attrs : List (String × Widget)) (w : Widget) :
    ∀ e ∈ (setup_widget attrs w).2.1, ∃ n c, e = Event.connectSignal n c := by
  intro e he
  cases h1 : w.isMixin with
  | false => simp [setup_widget, h1] at he
  | true =>
      cases hdt : w.dataType with
      | none => simp [setup_widget, h1, hdt] at he
      | some dt =>
          cases hma : w.modelAttribute with
          | none => simp [setup_widget, h1, hdt, hma] at he
          | some a =>
              by_cases hne : a = ""
              · simp [setup_widget, h1, hdt, hma, hne] at he
              · cases hdup : (alookup attrs a).isSome with
                | true =>
                    simp [setup_widget, h1, hdt, hma, hne, hdup] at he
                    exact ⟨w.name, w.connectId, he⟩
                | false =>
                    simp [setup_widget, h1, hdt, hma, hne, hdup] at he
                    exact ⟨w.name, w.connectId, he⟩

theorem proxyInitAux_events (view : View) (l : List String) :
    ∀ attrs, ∀ e ∈ (proxyInitAux view l attrs).2.1,
      ∃ n c, e = Event.connectSignal n c := by
  induction l with
  | nil =>
      intro attrs e he
      simp [proxyInitAux] at he
  | cons nm rest ih =>
      intro attrs e he
      cases hl : alookup view.widgets nm with
      | none =>
          have hstep : proxyInitAux view (nm :: rest) attrs =
              (attrs, [], some .attributeError) := by
            simp [proxyInitAux, hl]
          rw [hstep] at he
          simp at he
      | some w =>
          rcases hs : setup_widget attrs w with ⟨attrs', evs, r⟩
          cases r with
          | some err =>
              have hstep : proxyInitAux view (nm :: rest) attrs =
                  (attrs', evs, some err) := by
                simp [proxyInitAux, hl, hs]
              rw [hstep] at he
              exact setup_widget_events attrs w e (by rw [hs]; exact he)
          | none =>
              rcases haux : proxyInitAux view rest attrs' with ⟨attrs2, evs2, r2⟩
              have hstep : proxyInitAux view (nm :: rest) attrs =
                  (attrs2, evs ++ evs2, r2) := by
                simp [proxyInitAux, hl, hs, haux]
              rw [hstep] at he
              rcases List.mem_append.mp he with h1 | h1
              · exact setup_widget_events attrs w e (by rw [hs]; exact h1)
              · exact ih attrs' e (by rw [haux]; exact h1)

theorem initStep_no_model (p : Proxy) (hp : p.model = none) (a : String) (w : Widget) :
    initWidgetStep p a w =
      ((if w.supportsValidation then [Event.widgetValidateForce w.name] else []),
       none) := by
  simp [initWidgetStep, hp, Proxy.update]

theorem initAux_no_model (p : Proxy) (hp : p.model = none)
    (l : List (String × Widget)) :
    ∀ e ∈ (initializeWidgetsAux p l).1, ∃ n, e = Event.widgetValidateForce n := by
  induction l with
  | nil =>
      intro e he
      simp [initializeWidgetsAux] at he
  | cons hd tl ih =>
      obtain ⟨a, w⟩ := hd
      intro e he
      unfold initializeWidgetsAux at he
      rw [initStep_no_model p hp a w] at he
      rcases hrec : initializeWidgetsAux p tl with ⟨evs2, r⟩
      rw [hrec] at he
      rcases List.mem_append.mp he with h1 | h1
      · by_cases hval : w.supportsValidation
        · simp [hval] at h1
          exact ⟨w.name, h1⟩
        · simp [hval] at h1
      · exact ih e (by rw [hrec]; exact h1)

/-- C5: a Proxy constructed with `model=None` leaves every widget at its
own default: the constructor trace contains no `widget.update` call at
all (so none with a real value — the per-attribute value is the unset
sentinel and `update` short-circuits) and no registration with any
model, and the resulting proxy's model is `None`. -/
theorem c5_no_model_defaults (view : View) (names : List String) :
    (∀ wn v, Event.widgetUpdate wn v ∉ (proxyInit view none names).2.1) ∧
    (∀ a, Event.registerProxy a ∉ (proxyInit view none names).2.1) ∧
    (∀ q, (proxyInit view none names).1 = some q → q.model = none) := by
  rcases haux : proxyInitAux view names [] with ⟨attrs, evs, r⟩
  have hevs : ∀ e ∈ evs, ∃ n c, e = Event.connectSignal n c := by
    intro e he
    exact proxyInitAux_events view names [] e (by rw [haux]; exact he)
  cases r with
  | some err =>
      refine ⟨?_, ?_, ?_⟩
      · intro wn v hmem
        rw [show (proxyInit view none names).2.1 = evs by simp [proxyInit, haux]] at hmem
        obtain ⟨n, c, hc⟩ := hevs _ hmem
        exact Event.noConfusion hc
      · intro a hmem
        rw [show (proxyInit view none names).2.1 = evs by simp [proxyInit, haux]] at hmem
        obtain ⟨n, c, hc⟩ := hevs _ hmem
        exact Event.noConfusion hc
      · intro q hq
        rw [show (proxyInit view none names).1 = none by simp [proxyInit, haux]] at hq
        exact Option.noConfusion hq
  | none =>
      rcases hinit : initialize_widgets ⟨none, attrs⟩ with ⟨evs2, r2⟩
      have hevs2 : ∀ e ∈ evs2, ∃ n, e = Event.widgetValidateForce n := by
        intro e he
        exact initAux_no_model ⟨none, attrs⟩ rfl attrs e
          (by rw [show initializeWidgetsAux ⟨none, attrs⟩ attrs = (evs2, r2) from hinit]
              exact he)
      have htrace : (proxyInit view none names).2.1 = evs ++ evs2 := by
        cases r2 <;> simp [proxyInit, haux, hinit]
      refine ⟨?_, ?_, ?_⟩
      · intro wn v hmem
        rw [htrace] at hmem
        rcases List.mem_append.mp hmem with h1 | h1
        · obtain ⟨n, c, hc⟩ := hevs _ h1
          exact Event.noConfusion hc
        · obtain ⟨n, hc⟩ := hevs2 _ h1
          exact Event.noConfusion hc
      · intro a hmem
        rw [htrace] at hmem
        rcases List.mem_append.mp hmem with h1 | h1
        · obtain ⟨n, c, hc⟩ := hevs _ h1
          exact Event.noConfusion hc
        · obtain ⟨n, hc⟩ := hevs2 _ h1
          exact Event.noConfusion hc
      · intro q hq
        cases r2 with
        | some err2 =>
            rw [show (proxyInit view none names).1 = none by
              simp [proxyInit, haux, hinit]] at hq
            exact Option.noConfusion hq
        | none =>
            rw [show (proxyInit view none names).1 = some ⟨none, attrs⟩ by
              simp [proxyInit, haux, hinit]] at hq
            cases Option.some.inj hq
            rfl

theorem c5_witness :
    Event.widgetUpdate "age_widget" Value.VUnset ∉ (proxyInit vOk none ["w1"]).2.1 ∧
    (⟨none, [("age", wAge)]⟩ : Proxy).model = none :=
  ⟨(c5_no_model_defaults vOk ["w1"]).1 "age_widget" Value.VUnset,
   (c5_no_model_defaults vOk ["w1"]).2.2 ⟨none, [("age", wAge)]⟩ (by decide)⟩

theorem update_clean (p : Proxy) (m : Model) (a : String) (w : Widget)
    (hm : p.model = some m) (hw : alookup p.modelAttributes a = some w)
    (hur : w.updateRaises = false)
    (hok : valuePassesCheck (kgetattr m a .VUnset) w = true) :
    p.update a (kgetattr m a .VUnset) true =
      (block_widget w ++ [Event.viewHandlerBlock w.name,
         Event.widgetUpdate w.name (kgetattr m a .VUnset),
         Event.viewHandlerUnblock w.name] ++ unblock_widget w, .ok true) := by
  by_cases hv : kgetattr m a .VUnset = .VUnset
  · rw [hv] at hok ⊢
    simp [Proxy.update, hm, hv, updateResolved, hw, hok, widgetUpdateCall, hur,
      List.append_assoc]
  · simp [Proxy.update, hv, updateResolved, hw, hok, widgetUpdateCall, hur,
      List.append_assoc]

theorem initStep_clean (p : Proxy) (m : Model) (a : String) (w : Widget)
    (hm : p.model = some m) (hw : alookup p.modelAttributes a = some w)
    (hreg : m.hasRegisterProxy = true → m.registerRaisesAttrErr = false)
    (hur : w.updateRaises = false)
    (hok : valuePassesCheck (kgetattr m a .VUnset) w = true) :
    initWidgetStep p a w =
      ((if m.hasRegisterProxy then [Event.registerProxy a] else []) ++
       block_widget w ++ [Event.viewHandlerBlock w.name,
         Event.widgetUpdate w.name (kgetattr m a .VUnset),
         Event.viewHandlerUnblock w.name] ++ unblock_widget w ++
       (if w.supportsValidation then [Event.widgetValidateForce w.name] else []),
       none) := by
  have hreg2 : register_proxy_in_model p a =
      ((if m.hasRegisterProxy then [Event.registerProxy a] else []), none) := by
    cases hr : m.hasRegisterProxy with
    | false => simp [register_proxy_in_model, hm, hr]
    | true => simp [register_proxy_in_model, hm, hr, hreg hr]
  simp [initWidgetStep, hm, hreg2, update_clean p m a w hm hw hur hok,
    List.append_assoc]

theorem initAux_clean (p : Proxy) (m : Model) (hm : p.model = some m)
    (hreg : m.hasRegisterProxy = true → m.registerRaisesAttrErr = false) :
    ∀ l : List (String × Widget),
      (∀ aw ∈ l, alookup p.modelAttributes aw.1 = some aw.2) →
      (∀ aw ∈ l, aw.2.updateRaises = false ∧
         valuePassesCheck (kgetattr m aw.1 .VUnset) aw.2 = true) →
      initializeWidgetsAux p l =
        ((l.map (fun aw =>
            (if m.hasRegisterProxy then [Event.registerProxy aw.1] else []) ++
            block_widget aw.2 ++ [Event.viewHandlerBlock aw.2.name,
              Event.widgetUpdate aw.2.name (kgetattr m aw.1 Value.VUnset),
              Event.viewHandlerUnblock aw.2.name] ++ unblock_widget aw.2 ++
            (if aw.2.supportsValidation
             then [Event.widgetValidateForce aw.2.name] else []))).flatten,
         none) := by
  intro l
  induction l with
  | nil =>
      intro _ _
      simp [initializeWidgetsAux]
  | cons hd tl ih =>
      intro hsub hwid
      obtain ⟨a, w⟩ := hd
      have h1 := hsub ⟨a, w⟩ (by simp)
      have h2 := hwid ⟨a, w⟩ (by simp)
      have hstep := initStep_clean p m a w hm h1 hreg h2.1 h2.2
      have hrec := ih (fun aw haw => hsub aw (by simp [haw]))
        (fun aw haw => hwid aw (by simp [haw]))
      simp [initializeWidgetsAux, hstep, hrec, List.append_assoc]

theorem new_model_clean_eq (p : Proxy) (newM : Model) (relax : Bool)
    (hchk : ∀ m, p.model = some m → relax = true ∨ pyIsinstance newM m)
    (hsub : ∀ aw ∈ p.modelAttributes, alookup p.modelAttributes aw.1 = some aw.2)
    (hreg : newM.hasRegisterProxy = true → newM.registerRaisesAttrErr = false)
    (hwid : ∀ aw ∈ p.modelAttributes, aw.2.updateRaises = false ∧
       valuePassesCheck (kgetattr newM aw.1 .VUnset) aw.2 = true) :
    p.new_model newM relax =
      (⟨some newM, p.modelAttributes⟩,
       unregister_proxy_in_model p ++
         Event.clearAttrCache ::
           (p.modelAttributes.map (fun aw =>
              (if newM.hasRegisterProxy then [Event.registerProxy aw.1] else []) ++
              block_widget aw.2 ++ [Event.viewHandlerBlock aw.2.name,
                Event.widgetUpdate aw.2.name (kgetattr newM aw.1 Value.VUnset),
                Event.viewHandlerUnblock aw.2.name] ++ unblock_widget aw.2 ++
              (if aw.2.supportsValidation
               then [Event.widgetValidateForce aw.2.name] else []))).flatten,
       none) := by
  have hinit := initAux_clean (⟨some newM, p.modelAttributes⟩ : Proxy) newM rfl hreg
    p.modelAttributes hsub hwid
  have hif : (match p.model with
      | none => none
      | some m => if relax = false ∧ newM.cls ≠ m.cls ∧ ¬ pyIsinstance newM m
                  then some PyErr.typeError else none) = (none : Option PyErr) := by
    cases hm : p.model with
    | none => rfl
    | some m =>
        rcases hchk m hm with h | h
        · simp [h]
        · simp [h]
  simp [Proxy.new_model, hif, Proxy.setModel_eq, initialize_widgets, hinit,
    List.append_assoc]

/-- C6: a successful `new_model(new_model)` call performs, in order:
unregistration from the outgoing model (when supported), clearing the
process-wide attribute-access cache, the (passing) type check, replacing
the model reference, and re-initialization, in which every bound widget
is updated from the new model's current attribute value
(`kgetattr new_model attr`, modelled from the spec since
`kiwi/accessors.py` is not under `src/`) with its change notification
suppressed around the `widget.update` call. -/
theorem c6_new_model_reinitializes (p : Proxy) (newM : Model) (relax : Bool)
    (hchk : ∀ m, p.model = some m → relax = true ∨ pyIsinstance newM m)
    (hsub : ∀ aw ∈ p.modelAttributes, alookup p.modelAttributes aw.1 = some aw.2)
    (hreg : newM.hasRegisterProxy = true → newM.registerRaisesAttrErr = false)
    (hwid : ∀ aw ∈ p.modelAttributes, aw.2.updateRaises = false ∧
       valuePassesCheck (kgetattr newM aw.1 .VUnset) aw.2 = true) :
    p.new_model newM relax =
      (⟨some newM, p.modelAttributes⟩,
       unregister_proxy_in_model p ++
         Event.clearAttrCache ::
           (p.modelAttributes.map (fun aw =>
              (if newM.hasRegisterProxy then [Event.registerProxy aw.1] else []) ++
              block_widget aw.2 ++ [Event.viewHandlerBlock aw.2.name,
                Event.widgetUpdate aw.2.name (kgetattr newM aw.1 Value.VUnset),
                Event.viewHandlerUnblock aw.2.name] ++ unblock_widget aw.2 ++
              (if aw.2.supportsValidation
               then [Event.widgetValidateForce aw.2.name] else []))).flatten,
       none) :=
  new_model_clean_eq p newM relax hchk hsub hreg hwid

theorem c6_witness :
    pSwap.new_model mB false =
      (⟨some mB, [("age", wAge)]⟩,
       [Event.unregisterProxy, Event.clearAttrCache, Event.handlerBlock 1,
        Event.viewHandlerBlock "age_widget",
        Event.widgetUpdate "age_widget" (Value.VInt 30),
        Event.viewHandlerUnblock "age_widget", Event.handlerUnblock 1],
       none) := by
  have hchk : ∀ m, pSwap.model = some m → (false = true ∨ pyIsinstance mB m) := by
    intro m hm
    have h2 : some mA = some m := hm
    cases Option.some.inj h2
    right
    decide
  have h := c6_new_model_reinitializes pSwap mB false hchk (by decide) (by decide)
    (by decide)
  exact h.trans (by decide)

/-- C7: with a current model and `relax_type=false`, `new_model` raises
`TypeError` at the model type check exactly when the new model is neither
of the same type as the current model nor an instance of the current
model's class (subclass accepted); with `relax_type=true`, or with no
current model, no type check is performed and any new model is accepted
(the model reference is replaced). Stated under hypotheses making the
subsequent re-initialization clean, so that the only possible `TypeError`
is the type check's. -/
theorem c7_new_model_type_check (p : Proxy) (newM : Model) (relax : Bool)
    (hsub : ∀ aw ∈ p.modelAttributes, alookup p.modelAttributes aw.1 = some aw.2)
    (hreg : newM.hasRegisterProxy = true → newM.registerRaisesAttrErr = false)
    (hwid : ∀ aw ∈ p.modelAttributes, aw.2.updateRaises = false ∧
       valuePassesCheck (kgetattr newM aw.1 .VUnset) aw.2 = true) :
    (∀ m, p.model = some m →
       (((p.new_model newM relax).2.2 = some PyErr.typeError) ↔
          (relax = false ∧ ¬ pyIsinstance newM m))) ∧
    (p.model = none →
       (p.new_model newM relax).1.model = some newM ∧
       (p.new_model newM relax).2.2 = none) ∧
    (relax = true →
       (p.new_model newM relax).1.model = some newM ∧
       (p.new_model newM relax).2.2 = none) := by
  refine ⟨?_, ?_, ?_⟩
  · intro m hm
    cases relax with
    | true =>
        have heq := new_model_clean_eq p newM true
          (fun _ _ => Or.inl rfl) hsub hreg hwid
        rw [heq]
        simp
    | false =>
        by_cases hiso : pyIsinstance newM m
        · have hchk : ∀ m', p.model = some m' → (false = true ∨ pyIsinstance newM m') := by
            intro m' hm'
            rw [hm] at hm'
            cases Option.some.inj hm'
            exact Or.inr hiso
          have heq := new_model_clean_eq p newM false hchk hsub hreg hwid
          rw [heq]
          simp [hiso]
        · have hne : newM.cls ≠ m.cls := fun hc => hiso (Or.inl hc)
          have heq : p.new_model newM false =
              (p, unregister_proxy_in_model p ++ [Event.clearAttrCache],
               some .typeError) := by
            simp [Proxy.new_model, hm, hne, hiso]
          rw [heq]
          simp [hiso]
  · intro hm
    have heq := new_model_clean_eq p newM relax
      (fun m' hm' => absurd (hm ▸ hm') (by simp)) hsub hreg hwid
    rw [heq]
    exact ⟨rfl, rfl⟩
  · intro hrel
    have heq := new_model_clean_eq p newM relax
      (fun _ _ => Or.inl hrel) hsub hreg hwid
    rw [heq]
    exact ⟨rfl, rfl⟩

theorem c7_witness :
    (pSwap.new_model mC false).2.2 = some PyErr.typeError :=
  ((c7_new_model_type_check pSwap mC false (by decide) (by decide) (by decide)).1
    mA rfl).mpr ⟨rfl, by decide⟩

end KiwiProxies
